import Mathlib

/-!
Verification of the haus voice-search application against its specification.

The definitions below are a shallow embedding of the TypeScript sources:
* `SearchParams`, `mergeStep` — the accumulated search criteria and the merge
  step of `processTranscript` in `src/components/voice-search/VoiceSearch.tsx`
  (lines 392–441).
* `onResultStep`, `runOnResults` — the `recognition.onresult` handler of
  `handleStartListening` (same file, lines 365–388).
* `vsProcessTranscript`, `evsProcessTranscript`, `ivsProcessTranscript` — the
  fetch/error paths of `processTranscript` in the three voice-search
  components.
* `interrupt`, `vsHandleCancel` — `OpenAIRealtimeService.interrupt` and
  `VoiceSearch.handleCancel`.
* `handleApiKeySave` — the localStorage write in
  `EnhancedRealtimeVoiceSearch.tsx`.
* `generateMockResults` — the mock result generator (numeric-price version).
* `routePOST` — the `/api/voice/process` route handler.
* `sliderStep` — the pointer and keyboard handlers of `PriceRangeSlider.tsx`.

JavaScript numbers are modelled as rationals (`Rat`), machine-level float
rounding being irrelevant to the properties at issue; `undefined`/missing
fields are `Option.none`; JS truthiness of a number is `≠ 0`, of a string
`≠ ""`.
-/

/-- Search state, from the `SearchParams` interface (all fields optional in
TypeScript; `initialSearchParams` sets the two arrays to `[]`). -/
structure SearchParams where
  location : Option String
  locationRadiusKm : Option Rat
  propertyType : Option String
  listingType : Option String
  priceMin : Option Rat
  priceMax : Option Rat
  bedroomsMin : Option Rat
  bathroomsMin : Option Rat
  sizeMetersMin : Option Rat
  sizeMetersMax : Option Rat
  style : Option String
  styleImage : Option String
  amenities : Option (List String)
  tags : Option (List String)
deriving DecidableEq, Repr

/-- `initialSearchParams` from `VoiceSearch.tsx`: every scalar `undefined`,
`amenities` and `tags` the empty array. -/
def initialSearchParams : SearchParams :=
  { location := none, locationRadiusKm := none, propertyType := none
    listingType := none, priceMin := none, priceMax := none
    bedroomsMin := none, bathroomsMin := none, sizeMetersMin := none
    sizeMetersMax := none, style := none, styleImage := none
    amenities := some [], tags := some [] }

/-- One field of the extraction API response: an object with an optional
`value` and optional `sourceText` array, per the Gemini response schema in
the `/api/voice/process` route. -/
structure RespField (α : Type) where
  value : Option α
  sourceText : Option (List String)
deriving DecidableEq, Repr

/-- The body of a successful extraction API response, one optional
`RespField` per key of `initialSearchParams` (a key that is absent, or whose
param object is null, is `none`). Keys outside `initialSearchParams` are
skipped by the merge loop's `key in initialSearchParams` test and are not
represented. -/
structure ExtractResponse where
  location : Option (RespField String)
  locationRadiusKm : Option (RespField Rat)
  propertyType : Option (RespField String)
  listingType : Option (RespField String)
  priceMin : Option (RespField Rat)
  priceMax : Option (RespField Rat)
  bedroomsMin : Option (RespField Rat)
  bathroomsMin : Option (RespField Rat)
  sizeMetersMin : Option (RespField Rat)
  sizeMetersMax : Option (RespField Rat)
  style : Option (RespField String)
  styleImage : Option (RespField String)
  amenities : Option (RespField (List String))
  tags : Option (RespField (List String))
deriving DecidableEq, Repr

/-- The empty extraction response: every key absent. -/
def emptyResponse : ExtractResponse :=
  { location := none, locationRadiusKm := none, propertyType := none
    listingType := none, priceMin := none, priceMax := none
    bedroomsMin := none, bathroomsMin := none, sizeMetersMin := none
    sizeMetersMax := none, style := none, styleImage := none
    amenities := none, tags := none }

/-- The keys of `AMENITY_CONFIG` in `VoiceSearch.tsx` (lines 156–188). -/
def amenityCatalog : List String :=
  ["Pool", "Pets Allowed", "Garage", "Garden", "Gym", "Balcony", "Waterfront",
   "Sea View", "Mountain View", "City View", "Hot Tub", "Fireplace", "Laundry",
   "Furnished", "Dishwasher", "Hardwood Floors", "Wheelchair Accessible",
   "EV Charging", "Gated Community", "Security System", "Solar Panels",
   "Wine Cellar", "Home Office", "High Ceilings", "Central Heating",
   "Elevator", "Fenced Yard", "Good School District", "Outdoor Entertaining",
   "New Build", "Earthquake Strengthened"]

/-- The keys of `PERMANENT_TAG_CONFIG` in `VoiceSearch.tsx` (lines 190–195). -/
def tagCatalog : List String := ["new", "premium", "open-house", "auction"]

/-- Helper for `jsDedup`: keep each element whose first occurrence this is,
tracking the set of elements already seen. -/
def jsDedupAux (seen : List String) : List String → List String
  | [] => []
  | a :: l =>
      if seen.contains a then jsDedupAux seen l
      else a :: jsDedupAux (a :: seen) l

/-- `Array.from(new Set(xs))` in JavaScript: deduplicate keeping the first
occurrence of each element, preserving order. -/
def jsDedup (l : List String) : List String := jsDedupAux [] l

/-- `searchParams.amenities || []`. -/
def amenList (p : SearchParams) : List String := p.amenities.getD []

/-- `searchParams.tags || []`. -/
def tagList (p : SearchParams) : List String := p.tags.getD []

/-- Whether a response field passes the merge guard
`param && param.value !== undefined && param.value !== null`. -/
def hasVal {α : Type} : Option (RespField α) → Bool
  | some rf => rf.value.isSome
  | none => false

/-- The scalar-key case of the merge loop: `param.value` overrides the old
value when the guard passes, else the old value is kept (the key is not
written into `updatedParamsPartial`). -/
def mergeScalar {α : Type} (old : Option α) (f : Option (RespField α)) : Option α :=
  match f with
  | some rf =>
      match rf.value with
      | some v => some v
      | none => old
  | none => old

/-- The array value of the `amenities`/`tags` response field (`[]` when the
key is absent or has no value). -/
def respListVal (f : Option (RespField (List String))) : List String :=
  match f with
  | some rf => rf.value.getD []
  | none => []

/-- `(param.value as string[]).filter(a => AMENITY_CONFIG.some(ac => ac.key
=== a) && !existingAmenities.has(a))` from `processTranscript`. -/
def newAmenitiesOf (p : SearchParams) (r : ExtractResponse) : List String :=
  (respListVal r.amenities).filter
    (fun a => amenityCatalog.contains a && !((amenList p).contains a))

/-- `(param.value as string[]).filter(t => PERMANENT_TAG_CONFIG.some(tc =>
tc.key === t) && !existingTags.has(t))` from `processTranscript`. -/
def newTagsOf (p : SearchParams) (r : ExtractResponse) : List String :=
  (respListVal r.tags).filter
    (fun t => tagCatalog.contains t && !((tagList p).contains t))

/-- Characters removed by JavaScript `String.prototype.trim` (the common
whitespace subset). -/
def jsSpace (c : Char) : Bool :=
  c = ' ' || c = '\t' || c = '\n' || c = '\r' || c = '\x0b' || c = '\x0c'

/-- `.trim()` on a character sequence: strip leading and trailing
whitespace. -/
def trimL (s : List Char) : List Char :=
  ((s.dropWhile jsSpace).reverse.dropWhile jsSpace).reverse

/-- JavaScript `s.trim()`. -/
def jsTrim (s : String) : String := String.mk (trimL s.data)

/-- JavaScript `s.toLowerCase()` (ASCII case folding). -/
def jsToLower (s : String) : String := String.mk (s.data.map Char.toLower)

/-- `param.sourceText.filter(s => s && s.trim().length > 0)`, collected only
when the field's value guard passed and `sourceText` is an array. -/
def srcOf {α : Type} : Option (RespField α) → List String
  | some rf =>
      match rf.value with
      | some _ =>
          match rf.sourceText with
          | some xs => xs.filter (fun s => s != "" && jsTrim s != "")
          | none => []
      | none => []
  | none => []

/-- `newGlowing.push(key)` for a scalar key whose value guard passed. -/
def glowOf {α : Type} (f : Option (RespField α)) (name : String) : List String :=
  if hasVal f then [name] else []

/-- Component status values (`SearchStatus` in `VoiceSearch.tsx` plus the
states used by the other voice-search components). -/
inductive SStatus where
  | demo | idle | listening | processing | confirming | done | complete
deriving DecidableEq, Repr

/-- The outputs of one merge step of `processTranscript`:
the updated params (`setSearchParams`), the keys/amenity names pushed to
`newGlowing`, the source strings pushed to `setHighlightedText`, the status
set at the end, and whether `updatedParamsPartial` was non-empty. -/
structure MergeOut where
  params : SearchParams
  glowing : List String
  highlighted : List String
  status : SStatus
  updated : Bool
deriving DecidableEq, Repr

/-- One merge step of `processTranscript` in `VoiceSearch.tsx`
(lines 405–436), applied to the prior `searchParams` and a parsed extraction
response. `hasRec` is `recognitionRef.current !== null`, the only piece of
component state other than the two inputs that the step reads (it decides the
fallback status only). The key iteration follows the response-schema order. -/
def mergeStep (p : SearchParams) (r : ExtractResponse) (hasRec : Bool) : MergeOut :=
  let newAm := newAmenitiesOf p r
  let newTg := newTagsOf p r
  let upd :=
    hasVal r.location || hasVal r.locationRadiusKm || hasVal r.propertyType ||
    hasVal r.listingType || hasVal r.priceMin || hasVal r.priceMax ||
    hasVal r.bedroomsMin || hasVal r.bathroomsMin || hasVal r.sizeMetersMin ||
    hasVal r.sizeMetersMax || hasVal r.style || hasVal r.styleImage ||
    !newAm.isEmpty || !newTg.isEmpty
  let priceGlow :=
    Option.any (fun v => v != 0) (match r.priceMin with
      | some rf => rf.value
      | none => none) ||
    Option.any (fun v => v != 0) (match r.priceMax with
      | some rf => rf.value
      | none => none)
  { params :=
      { location := mergeScalar p.location r.location
        locationRadiusKm := mergeScalar p.locationRadiusKm r.locationRadiusKm
        propertyType := mergeScalar p.propertyType r.propertyType
        listingType := mergeScalar p.listingType r.listingType
        priceMin := mergeScalar p.priceMin r.priceMin
        priceMax := mergeScalar p.priceMax r.priceMax
        bedroomsMin := mergeScalar p.bedroomsMin r.bedroomsMin
        bathroomsMin := mergeScalar p.bathroomsMin r.bathroomsMin
        sizeMetersMin := mergeScalar p.sizeMetersMin r.sizeMetersMin
        sizeMetersMax := mergeScalar p.sizeMetersMax r.sizeMetersMax
        style := mergeScalar p.style r.style
        styleImage := mergeScalar p.styleImage r.styleImage
        amenities :=
          if newAm.isEmpty then p.amenities
          else some (jsDedup (amenList p) ++ newAm)
        tags :=
          if newTg.isEmpty then p.tags
          else some (jsDedup (tagList p) ++ newTg) }
    glowing :=
      glowOf r.location "location" ++ glowOf r.locationRadiusKm "locationRadiusKm" ++
      glowOf r.propertyType "propertyType" ++ glowOf r.listingType "listingType" ++
      glowOf r.priceMin "priceMin" ++ glowOf r.priceMax "priceMax" ++
      glowOf r.bedroomsMin "bedroomsMin" ++ glowOf r.bathroomsMin "bathroomsMin" ++
      glowOf r.sizeMetersMin "sizeMetersMin" ++ glowOf r.sizeMetersMax "sizeMetersMax" ++
      glowOf r.style "style" ++ glowOf r.styleImage "styleImage" ++
      newAm ++ newTg ++ (if priceGlow then ["priceSlider"] else [])
    highlighted :=
      if upd then
        srcOf r.location ++ srcOf r.locationRadiusKm ++ srcOf r.propertyType ++
        srcOf r.listingType ++ srcOf r.priceMin ++ srcOf r.priceMax ++
        srcOf r.bedroomsMin ++ srcOf r.bathroomsMin ++ srcOf r.sizeMetersMin ++
        srcOf r.sizeMetersMax ++ srcOf r.style ++ srcOf r.styleImage ++
        srcOf r.amenities ++ srcOf r.tags
      else []
    status :=
      if upd then SStatus.confirming
      else if hasRec then SStatus.listening else SStatus.idle
    updated := upd }

/-! ### Helper lemmas about the merge step -/

theorem jsDedupAux_eq_self {l : List String} (h : l.Nodup) :
    ∀ seen : List String, (∀ a ∈ l, seen.contains a = false) →
      jsDedupAux seen l = l := by
  induction l with
  | nil => intro seen _; rfl
  | cons a l ih =>
    intro seen hd
    rw [List.nodup_cons] at h
    rw [jsDedupAux, if_neg (show ¬ seen.contains a = true by
      rw [hd a (List.mem_cons_self a l)]; exact Bool.false_ne_true)]
    rw [ih h.2 (a :: seen)]
    intro x hx
    have hxa : ¬ x = a := fun he => h.1 (he ▸ hx)
    simp only [List.contains_cons, Bool.or_eq_false_iff]
    exact ⟨beq_eq_false_iff_ne.mpr hxa, hd x (List.mem_cons_of_mem a hx)⟩

theorem jsDedup_eq_self {l : List String} (h : l.Nodup) : jsDedup l = l :=
  jsDedupAux_eq_self h [] (fun _ _ => rfl)

theorem mergeScalar_absent {α : Type} (old : Option α) (f : Option (RespField α))
    (h : hasVal f = false) : mergeScalar old f = old := by
  cases f with
  | none => rfl
  | some rf =>
    cases hv : rf.value with
    | none => simp [mergeScalar, hv]
    | some v => simp [hasVal, hv] at h

theorem mergeScalar_isSome {α : Type} (old : Option α) (f : Option (RespField α))
    (h : old.isSome = true) : (mergeScalar old f).isSome = true := by
  cases f with
  | none => exact h
  | some rf =>
    cases hv : rf.value with
    | none => simpa [mergeScalar, hv] using h
    | some v => simp [mergeScalar, hv]

theorem respListVal_absent (f : Option (RespField (List String)))
    (h : hasVal f = false) : respListVal f = [] := by
  cases f with
  | none => rfl
  | some rf =>
    cases hv : rf.value with
    | none => simp [respListVal, hv]
    | some v => simp [hasVal, hv] at h

/-- C1, counterexample: the claim "no duplicate is introduced" fails when the
extraction response itself lists the same catalogue amenity twice.  Starting
from `initialSearchParams` (duplicate-free amenities), a response whose
`amenities.value` is `["Pool", "Pool"]` makes one merge step produce the
amenities list `["Pool", "Pool"]`: the filter checks membership against the
prior list only, so both copies pass. -/
theorem mergeStep_dup_counterexample :
    (amenList initialSearchParams).Nodup ∧
    ¬ (amenList (mergeStep initialSearchParams
        { emptyResponse with
          amenities := some { value := some ["Pool", "Pool"], sourceText := none } }
        true).params).Nodup := by
  have h : amenList (mergeStep initialSearchParams
      { emptyResponse with
        amenities := some { value := some ["Pool", "Pool"], sourceText := none } }
      true).params = ["Pool", "Pool"] := by
    simp [amenList, mergeStep, newAmenitiesOf, respListVal, emptyResponse,
      initialSearchParams, jsDedup, jsDedupAux, amenityCatalog]
  constructor
  · simp [amenList, initialSearchParams]
  · rw [h]
    simp

/-- C1 (amended): provided the response's `amenities.value` and `tags.value`
arrays are themselves duplicate-free, and the accumulated lists are
duplicate-free (as they are whenever built by this merge from the initial
state), one merge step of `processTranscript` extends the amenities list with
exactly the response amenities that are in `AMENITY_CONFIG` and not already
present, and the tags list with exactly the response tags that are in
`PERMANENT_TAG_CONFIG` and not already present; nothing is removed and no
duplicate is introduced. -/
theorem mergeStep_accumulates (p : SearchParams) (r : ExtractResponse) (b : Bool)
    (hpa : (amenList p).Nodup) (hpt : (tagList p).Nodup)
    (hra : (respListVal r.amenities).Nodup) (hrt : (respListVal r.tags).Nodup) :
    amenList (mergeStep p r b).params
      = amenList p ++ (respListVal r.amenities).filter
          (fun a => amenityCatalog.contains a && !((amenList p).contains a)) ∧
    (amenList (mergeStep p r b).params).Nodup ∧
    tagList (mergeStep p r b).params
      = tagList p ++ (respListVal r.tags).filter
          (fun t => tagCatalog.contains t && !((tagList p).contains t)) ∧
    (tagList (mergeStep p r b).params).Nodup := by
  have keyAm : amenList (mergeStep p r b).params = amenList p ++ newAmenitiesOf p r := by
    by_cases he : (newAmenitiesOf p r).isEmpty = true
    · have he' : newAmenitiesOf p r = [] := List.isEmpty_iff.mp he
      simp [amenList, mergeStep, he, he']
    · have he2 : (newAmenitiesOf p r).isEmpty = false := by
        simpa using he
      simp [amenList, mergeStep, he2]
      exact jsDedup_eq_self hpa
  have keyTg : tagList (mergeStep p r b).params = tagList p ++ newTagsOf p r := by
    by_cases he : (newTagsOf p r).isEmpty = true
    · have he' : newTagsOf p r = [] := List.isEmpty_iff.mp he
      simp [tagList, mergeStep, he, he']
    · have he2 : (newTagsOf p r).isEmpty = false := by
        simpa using he
      simp [tagList, mergeStep, he2]
      exact jsDedup_eq_self hpt
  have disjAm : ∀ a ∈ amenList p, a ∉ newAmenitiesOf p r := by
    intro a ha hmem
    have hc := (List.mem_filter.mp hmem).2
    simp only [Bool.and_eq_true, Bool.not_eq_true'] at hc
    have hmt : (amenList p).contains a = true := List.elem_iff.mpr ha
    rw [hc.2] at hmt
    exact Bool.false_ne_true hmt
  have disjTg : ∀ t ∈ tagList p, t ∉ newTagsOf p r := by
    intro t ht hmem
    have hc := (List.mem_filter.mp hmem).2
    simp only [Bool.and_eq_true, Bool.not_eq_true'] at hc
    have hmt : (tagList p).contains t = true := List.elem_iff.mpr ht
    rw [hc.2] at hmt
    exact Bool.false_ne_true hmt
  refine ⟨keyAm, ?_, keyTg, ?_⟩
  · rw [keyAm]
    exact List.Nodup.append hpa (List.Nodup.filter _ hra) disjAm
  · rw [keyTg]
    exact List.Nodup.append hpt (List.Nodup.filter _ hrt) disjTg

/-- C1 amended-theorem witness at a concrete input: prior state with amenity
`Gym`, response offering `Pool`, `Gym` and the non-catalogue string `Moat`. -/
theorem mergeStep_accumulates_witness :
    amenList (mergeStep { initialSearchParams with amenities := some ["Gym"] }
        { emptyResponse with
          amenities := some { value := some ["Pool", "Gym", "Moat"], sourceText := none } }
        true).params
      = ["Gym"] ++ (["Pool", "Gym", "Moat"].filter
          (fun a => amenityCatalog.contains a && !(["Gym"].contains a))) := by
  have h := mergeStep_accumulates
    { initialSearchParams with amenities := some ["Gym"] }
    { emptyResponse with
      amenities := some { value := some ["Pool", "Gym", "Moat"], sourceText := none } }
    true (by simp [amenList]) (by simp [tagList, initialSearchParams])
    (by simp [respListVal]) (by simp [respListVal, emptyResponse])
  exact h.1

/-- The keys of the search-parameter record (`initialSearchParams`). -/
inductive PKey where
  | location | locationRadiusKm | propertyType | listingType
  | priceMin | priceMax | bedroomsMin | bathroomsMin
  | sizeMetersMin | sizeMetersMax | style | styleImage
  | amenities | tags
deriving DecidableEq, Repr

/-- Whether key `k` fails the merge guard in the response: absent, null
param, or `value` null/undefined. -/
def fieldAbsent (r : ExtractResponse) : PKey → Bool
  | PKey.location => !hasVal r.location
  | PKey.locationRadiusKm => !hasVal r.locationRadiusKm
  | PKey.propertyType => !hasVal r.propertyType
  | PKey.listingType => !hasVal r.listingType
  | PKey.priceMin => !hasVal r.priceMin
  | PKey.priceMax => !hasVal r.priceMax
  | PKey.bedroomsMin => !hasVal r.bedroomsMin
  | PKey.bathroomsMin => !hasVal r.bathroomsMin
  | PKey.sizeMetersMin => !hasVal r.sizeMetersMin
  | PKey.sizeMetersMax => !hasVal r.sizeMetersMax
  | PKey.style => !hasVal r.style
  | PKey.styleImage => !hasVal r.styleImage
  | PKey.amenities => !hasVal r.amenities
  | PKey.tags => !hasVal r.tags

/-- Two search-parameter records agree at key `k`. -/
def sameField (a b : SearchParams) : PKey → Prop
  | PKey.location => a.location = b.location
  | PKey.locationRadiusKm => a.locationRadiusKm = b.locationRadiusKm
  | PKey.propertyType => a.propertyType = b.propertyType
  | PKey.listingType => a.listingType = b.listingType
  | PKey.priceMin => a.priceMin = b.priceMin
  | PKey.priceMax => a.priceMax = b.priceMax
  | PKey.bedroomsMin => a.bedroomsMin = b.bedroomsMin
  | PKey.bathroomsMin => a.bathroomsMin = b.bathroomsMin
  | PKey.sizeMetersMin => a.sizeMetersMin = b.sizeMetersMin
  | PKey.sizeMetersMax => a.sizeMetersMax = b.sizeMetersMax
  | PKey.style => a.style = b.style
  | PKey.styleImage => a.styleImage = b.styleImage
  | PKey.amenities => a.amenities = b.amenities
  | PKey.tags => a.tags = b.tags

/-- Key `k` carries a value (is not `undefined`) in the record. -/
def fieldSet (p : SearchParams) : PKey → Bool
  | PKey.location => p.location.isSome
  | PKey.locationRadiusKm => p.locationRadiusKm.isSome
  | PKey.propertyType => p.propertyType.isSome
  | PKey.listingType => p.listingType.isSome
  | PKey.priceMin => p.priceMin.isSome
  | PKey.priceMax => p.priceMax.isSome
  | PKey.bedroomsMin => p.bedroomsMin.isSome
  | PKey.bathroomsMin => p.bathroomsMin.isSome
  | PKey.sizeMetersMin => p.sizeMetersMin.isSome
  | PKey.sizeMetersMax => p.sizeMetersMax.isSome
  | PKey.style => p.style.isSome
  | PKey.styleImage => p.styleImage.isSome
  | PKey.amenities => p.amenities.isSome
  | PKey.tags => p.tags.isSome

theorem newAmenitiesOf_absent (p : SearchParams) (r : ExtractResponse)
    (h : hasVal r.amenities = false) : newAmenitiesOf p r = [] := by
  rw [newAmenitiesOf, respListVal_absent _ h]
  rfl

theorem newTagsOf_absent (p : SearchParams) (r : ExtractResponse)
    (h : hasVal r.tags = false) : newTagsOf p r = [] := by
  rw [newTagsOf, respListVal_absent _ h]
  rfl

/-- C2: one merge step of `processTranscript` is a frame: every key whose
response field is absent (or whose `value` is null/undefined) keeps its prior
value, and a key that had a value never loses it — accumulation never clears
a previously extracted criterion.  (Response keys outside
`initialSearchParams` are skipped by the loop's `key in initialSearchParams`
test and cannot affect the record at all.) -/
theorem mergeStep_frame (p : SearchParams) (r : ExtractResponse) (b : Bool) (k : PKey) :
    (fieldAbsent r k = true → sameField (mergeStep p r b).params p k) ∧
    (fieldSet p k = true → fieldSet (mergeStep p r b).params k = true) := by
  cases k <;>
    refine ⟨fun h => ?_, fun h => ?_⟩ <;>
    simp only [fieldAbsent, Bool.not_eq_true', fieldSet] at h <;>
    simp only [sameField, fieldSet, mergeStep] <;>
    first
      | exact mergeScalar_absent _ _ h
      | exact mergeScalar_isSome _ _ h
      | (rw [newAmenitiesOf_absent p r h]; rfl)
      | (rw [newTagsOf_absent p r h]; rfl)
      | ((by_cases he : (newAmenitiesOf p r).isEmpty = true <;> simp [he, h]); done)
      | ((by_cases he : (newTagsOf p r).isEmpty = true <;> simp [he, h]); done)
  done

/-- C2 witness: a concrete record with a set `style` and a response missing
the `style` key keeps `style` unchanged, and the always-set `amenities` field
stays set. -/
theorem mergeStep_frame_witness :
    sameField (mergeStep { initialSearchParams with style := some "Chalet" }
        emptyResponse true).params
      { initialSearchParams with style := some "Chalet" } PKey.style ∧
    fieldSet (mergeStep { initialSearchParams with style := some "Chalet" }
        emptyResponse true).params PKey.amenities = true := by
  refine ⟨(mergeStep_frame _ emptyResponse true PKey.style).1 (by decide),
          (mergeStep_frame _ emptyResponse true PKey.amenities).2 (by decide)⟩

/-- C3: the merge step is a deterministic function of the prior search
parameters and the response body alone: the updated parameters and the newly
highlighted source-text strings do not depend on the remaining component
state (modelled by `hasRec`, the presence of an active recognition session,
which only selects the fallback status). -/
theorem mergeStep_stateless (p : SearchParams) (r : ExtractResponse) (b1 b2 : Bool) :
    (mergeStep p r b1).params = (mergeStep p r b2).params ∧
    (mergeStep p r b1).highlighted = (mergeStep p r b2).highlighted :=
  ⟨rfl, rfl⟩

/-! ### The `recognition.onresult` handler (`VoiceSearch.tsx` lines 365–388)

Transcripts are modelled as character sequences (`List Char`). -/

/-- The final-transcript bookkeeping of `recognition.onresult`: when the
guard `final_transcript && final_transcript !== lastFinalTranscript.current`
passes, record the full final transcript in `lastFinalTranscript` and emit
the raw new chunk
`final_transcript.substring(lastFinalTranscript.current.length)`; otherwise
leave the state alone and emit nothing. -/
def onResultStep (lastFinal finalT : List Char) : List Char × Option (List Char) :=
  if finalT ≠ [] ∧ finalT ≠ lastFinal then
    (finalT, some (finalT.drop lastFinal.length))
  else (lastFinal, none)

/-- `if (newChunk.trim()) processTranscript(newChunk.trim())`: the text
actually submitted for extraction from a raw chunk, when non-blank. -/
def processedChunk : Option (List Char) → Option (List Char)
  | some raw => if trimL raw ≠ [] then some (trimL raw) else none
  | none => none

/-- Run the handler over successive values of the accumulated final
transcript, collecting the raw chunks it emits. -/
def runOnResults (lf : List Char) : List (List Char) → List Char × List (List Char)
  | [] => (lf, [])
  | t :: ts =>
      let s := onResultStep lf t
      let rest := runOnResults s.1 ts
      (rest.1, (match s.2 with | some c => [c] | none => []) ++ rest.2)

/-- Each final transcript extends the previous one (speech recognition only
appends finalized results). -/
def chainPrefixB : List Char → List (List Char) → Bool
  | _, [] => true
  | a, b :: l => a.isPrefixOf b && chainPrefixB b l

/-- The last element of a nonempty sequence given as head and tail. -/
def lastOf (a : List Char) : List (List Char) → List Char
  | [] => a
  | b :: l => lastOf b l

theorem append_drop_of_isPrefixOf {a b : List Char} (h : a.isPrefixOf b = true) :
    a ++ b.drop a.length = b := by
  induction a generalizing b with
  | nil => simp
  | cons x xs ih =>
    cases b with
    | nil => simp [List.isPrefixOf] at h
    | cons y ys =>
      rw [List.isPrefixOf, Bool.and_eq_true, beq_iff_eq] at h
      simp only [List.cons_append, List.length_cons, List.drop_succ_cons]
      rw [h.1, ih h.2]

/-- C4: during continuous listening only the newly finalized suffix is
submitted.  Along any run in which each accumulated final transcript extends
the previous one, the handler's prefix register ends up equal to the last
final transcript, and the emitted raw chunks concatenate (after the starting
prefix) to exactly that transcript — every finalized character is emitted in
exactly one chunk, so no finalized portion is extracted twice.  Each emitted
chunk is then submitted as `processedChunk` — its trim — exactly when that
trim is non-blank. -/
theorem onresult_no_reextraction (lf : List Char) (ts : List (List Char))
    (h : chainPrefixB lf ts = true) :
    (runOnResults lf ts).1 = lastOf lf ts ∧
    lf ++ (runOnResults lf ts).2.flatten = lastOf lf ts := by
  induction ts generalizing lf with
  | nil => simp [runOnResults, lastOf]
  | cons t ts ih =>
    rw [chainPrefixB, Bool.and_eq_true] at h
    obtain ⟨h1, h2⟩ := h
    by_cases ht : t = []
    · subst ht
      have hlf : lf = [] := by
        cases lf with
        | nil => rfl
        | cons c cs => simp [List.isPrefixOf] at h1
      subst hlf
      obtain ⟨ih1, ih2⟩ := ih [] h2
      simp only [runOnResults, onResultStep, ne_eq, not_true_eq_false,
        false_and, if_false, lastOf]
      exact ⟨ih1, ih2⟩
    · by_cases hte : t = lf
      · subst hte
        obtain ⟨ih1, ih2⟩ := ih t h2
        simp only [runOnResults, onResultStep, ne_eq, not_false_eq_true,
          true_and, not_true_eq_false, and_false, if_false, lastOf]
        exact ⟨ih1, ih2⟩
      · obtain ⟨ih1, ih2⟩ := ih t h2
        have hcond : (t ≠ [] ∧ t ≠ lf) := ⟨ht, hte⟩
        simp only [runOnResults, onResultStep, if_pos hcond, lastOf]
        refine ⟨ih1, ?_⟩
        simp only [List.flatten_cons, List.singleton_append]
        rw [← List.append_assoc, append_drop_of_isPrefixOf h1, ih2]

/-- C4 witness on a concrete monotone transcript run. -/
theorem onresult_no_reextraction_witness :
    (runOnResults [] ["find a house".toList,
        "find a house with a pool in sydney".toList]).1
      = lastOf [] ["find a house".toList,
        "find a house with a pool in sydney".toList] ∧
    [] ++ (runOnResults [] ["find a house".toList,
        "find a house with a pool in sydney".toList]).2.flatten
      = lastOf [] ["find a house".toList,
        "find a house with a pool in sydney".toList] :=
  onresult_no_reextraction [] _ (by decide)

/-! ### Fetch outcomes and error handling of `processTranscript` -/

/-- The outcome of a `fetch` as the component observes it: the promise
rejects, or a response arrives with an `ok` flag and a body that either
parses as JSON (`some`) or makes `response.json()` throw (`none`). -/
inductive FetchResult (β : Type) where
  | reject
  | response (ok : Bool) (body : Option β)
deriving DecidableEq, Repr

/-- The observable actions a voice-search component performs. -/
inductive VSEffect where
  | consoleError
  | setStatusE (s : SStatus)
  | applyParams
  | applyGlow
  | applyHighlight
  | closeModal
  | runSearch
  | emitResults
deriving DecidableEq, Repr

/-- The search-command phrases of the regex
`/^(search|let's go|lets go|find|ok|find my house|find my haus)$/` in
`processTranscript` (`VoiceSearch.tsx` line 393). -/
def searchCommands : List String :=
  ["search", "let\x27s go", "lets go", "find", "ok", "find my house",
   "find my haus"]

/-- `processTranscript` of `VoiceSearch.tsx` (lines 392–441): the command
shortcut, the minimum-length guard, the fetch, the `!response.ok` throw, the
merge on success, and the catch block (console log plus status reset); the
returned record is the resulting `searchParams`, and the effect list records
the component's actions in order. -/
def vsProcessTranscript (text : String) (p : SearchParams)
    (res : FetchResult ExtractResponse) (hasRec : Bool) :
    SearchParams × List VSEffect :=
  if searchCommands.contains (jsToLower (jsTrim text)) then (p, [VSEffect.runSearch])
  else if (jsTrim text).length < 3 then (p, [])
  else
    match res with
    | FetchResult.response true (some r) =>
        let m := mergeStep p r hasRec
        if m.updated then
          (m.params,
           [VSEffect.setStatusE SStatus.processing, VSEffect.applyParams,
            VSEffect.applyGlow, VSEffect.applyHighlight,
            VSEffect.setStatusE SStatus.confirming])
        else
          (p, [VSEffect.setStatusE SStatus.processing,
               VSEffect.setStatusE (if hasRec then SStatus.listening else SStatus.idle)])
    | FetchResult.response true none =>
        (p, [VSEffect.setStatusE SStatus.processing, VSEffect.consoleError,
             VSEffect.setStatusE (if hasRec then SStatus.listening else SStatus.idle)])
    | FetchResult.response false _ =>
        (p, [VSEffect.setStatusE SStatus.processing, VSEffect.consoleError,
             VSEffect.setStatusE (if hasRec then SStatus.listening else SStatus.idle)])
    | FetchResult.reject =>
        (p, [VSEffect.setStatusE SStatus.processing, VSEffect.consoleError,
             VSEffect.setStatusE (if hasRec then SStatus.listening else SStatus.idle)])

/-- `processTranscript` of `EnhancedVoiceSearch.tsx` (lines ~210–240): sets
state to processing, closes when the trimmed transcript is shorter than 5
characters, then fetches; the parsed JSON body is used as the search params
(`response.ok` is never consulted), and only a rejected fetch or a body that
fails to parse reaches the catch block (console log plus `onClose`). -/
def evsProcessTranscript (finalT : String) (res : FetchResult SearchParams) :
    List VSEffect :=
  let textToProcess := jsTrim finalT
  if textToProcess.length < 5 then
    [VSEffect.setStatusE SStatus.processing, VSEffect.closeModal]
  else
    match res with
    | FetchResult.reject =>
        [VSEffect.setStatusE SStatus.processing, VSEffect.consoleError,
         VSEffect.closeModal]
    | FetchResult.response _ none =>
        [VSEffect.setStatusE SStatus.processing, VSEffect.consoleError,
         VSEffect.closeModal]
    | FetchResult.response _ (some _) =>
        [VSEffect.setStatusE SStatus.processing,
         VSEffect.setStatusE SStatus.complete, VSEffect.emitResults]

/-- `processCompleteTranscript` of `InstantVoiceSearch.tsx` (lines 192–221):
identical structure, with
`finalTranscript.trim() || liveTranscript.trim()` as the processed text. -/
def ivsProcessTranscript (finalT liveT : String) (res : FetchResult SearchParams) :
    List VSEffect :=
  let textToProcess := if jsTrim finalT != "" then jsTrim finalT else jsTrim liveT
  if textToProcess.length < 5 then
    [VSEffect.setStatusE SStatus.processing, VSEffect.closeModal]
  else
    match res with
    | FetchResult.reject =>
        [VSEffect.setStatusE SStatus.processing, VSEffect.consoleError,
         VSEffect.closeModal]
    | FetchResult.response _ none =>
        [VSEffect.setStatusE SStatus.processing, VSEffect.consoleError,
         VSEffect.closeModal]
    | FetchResult.response _ (some _) =>
        [VSEffect.setStatusE SStatus.processing,
         VSEffect.setStatusE SStatus.complete, VSEffect.emitResults]

/-- A failure in the sense of the claim: the fetch rejects or the response is
non-OK. -/
def fetchFailed {β : Type} : FetchResult β → Bool
  | FetchResult.reject => true
  | FetchResult.response ok _ => !ok

/-- Any failure `VoiceSearch.processTranscript` can observe: the fetch
rejects, the response is non-OK (thrown at line 403), or `response.json()`
throws on an unparseable body.  Everything except an OK response with a
parseable body. -/
def vsFailure {β : Type} : FetchResult β → Bool
  | FetchResult.response true (some _) => false
  | _ => true

/-- C5, counterexample: in `EnhancedVoiceSearch` a failure consisting of a
non-OK response whose body still parses as JSON is *not* handled by closing
the modal or logging — `response.ok` is never consulted, the error body is
used as search parameters and results are emitted. -/
theorem evs_nonok_counterexample :
    fetchFailed (FetchResult.response false (some initialSearchParams)) = true ∧
    VSEffect.consoleError ∉ evsProcessTranscript "find houses in sydney"
        (FetchResult.response false (some initialSearchParams)) ∧
    VSEffect.closeModal ∉ evsProcessTranscript "find houses in sydney"
        (FetchResult.response false (some initialSearchParams)) ∧
    VSEffect.emitResults ∈ evsProcessTranscript "find houses in sydney"
        (FetchResult.response false (some initialSearchParams)) := by
  refine ⟨rfl, ?_, ?_, ?_⟩ <;> decide

/-- C5 (amended): in `VoiceSearch.processTranscript` every failure (fetch
rejection, non-OK response — which is thrown — or unparseable body) is
handled in the catch block: the error is logged to console, the status is
reset, the accumulated search parameters are untouched and no search or
result emission happens.  In `EnhancedVoiceSearch` and `InstantVoiceSearch`
the same holds for fetch rejections and unparseable bodies (console log plus
closing the modal), but not for non-OK responses with a JSON body, which are
treated as success. -/
theorem error_paths_amended :
    (∀ (text : String) (p : SearchParams) (res : FetchResult ExtractResponse)
        (hasRec : Bool),
        vsFailure res = true →
        searchCommands.contains (jsToLower (jsTrim text)) = false →
        ¬ (jsTrim text).length < 3 →
        (vsProcessTranscript text p res hasRec).1 = p ∧
        VSEffect.consoleError ∈ (vsProcessTranscript text p res hasRec).2 ∧
        VSEffect.applyParams ∉ (vsProcessTranscript text p res hasRec).2 ∧
        VSEffect.emitResults ∉ (vsProcessTranscript text p res hasRec).2 ∧
        VSEffect.runSearch ∉ (vsProcessTranscript text p res hasRec).2) ∧
    (∀ (finalT : String) (res : FetchResult SearchParams),
        ¬ (jsTrim finalT).length < 5 →
        (res = FetchResult.reject ∨ ∃ ok, res = FetchResult.response ok none) →
        evsProcessTranscript finalT res =
          [VSEffect.setStatusE SStatus.processing, VSEffect.consoleError,
           VSEffect.closeModal]) ∧
    (∀ (finalT liveT : String) (res : FetchResult SearchParams),
        ¬ (if jsTrim finalT != "" then jsTrim finalT else jsTrim liveT).length < 5 →
        (res = FetchResult.reject ∨ ∃ ok, res = FetchResult.response ok none) →
        ivsProcessTranscript finalT liveT res =
          [VSEffect.setStatusE SStatus.processing, VSEffect.consoleError,
           VSEffect.closeModal]) := by
  refine ⟨?_, ?_, ?_⟩
  · intro text p res hasRec hf hcmd hlen
    have hcmd2 : jsToLower (jsTrim text) ∉ searchCommands := fun hm => by
      have hc := List.elem_iff.mpr hm
      have hcmd' : List.elem (jsToLower (jsTrim text)) searchCommands = false := hcmd
      rw [hcmd'] at hc
      exact Bool.false_ne_true hc
    cases res with
    | reject => simp [vsProcessTranscript, hcmd2, hlen]
    | response ok body =>
      cases ok with
      | false => cases body <;> simp [vsProcessTranscript, hcmd2, hlen]
      | true =>
        cases body with
        | none => simp [vsProcessTranscript, hcmd2, hlen]
        | some r => simp [vsFailure] at hf
  · intro finalT res hlen hres
    rcases hres with h | ⟨ok, h⟩ <;> subst h <;>
      simp [evsProcessTranscript, hlen]
  · intro finalT liveT res hlen hres
    rcases hres with h | ⟨ok, h⟩ <;> subst h <;>
      simp only [ivsProcessTranscript] <;> rw [if_neg hlen]

/-- C5 amended-theorem witness at concrete failing fetches. -/
theorem error_paths_amended_witness :
    (vsProcessTranscript "show me houses" initialSearchParams
        FetchResult.reject false).1 = initialSearchParams ∧
    evsProcessTranscript "find houses in sydney" FetchResult.reject =
      [VSEffect.setStatusE SStatus.processing, VSEffect.consoleError,
       VSEffect.closeModal] ∧
    ivsProcessTranscript "" "find houses in sydney" FetchResult.reject =
      [VSEffect.setStatusE SStatus.processing, VSEffect.consoleError,
       VSEffect.closeModal] :=
  ⟨(error_paths_amended.1 "show me houses" initialSearchParams
      FetchResult.reject false rfl (by decide) (by decide)).1,
   error_paths_amended.2.1 "find houses in sydney" FetchResult.reject
      (by decide) (Or.inl rfl),
   error_paths_amended.2.2 "" "find houses in sydney" FetchResult.reject
      (by decide) (Or.inl rfl)⟩

/-! ### Cancellation operations (`OpenAIRealtimeService.interrupt`,
`VoiceSearch.handleCancel`) -/

/-- The connection state of `OpenAIRealtimeService` as `interrupt` and
`sendMessage` observe it: the `isConnected` flag, and whether `this.ws` is
non-null with `readyState === WebSocket.OPEN`. -/
structure RealtimeServiceState where
  isConnected : Bool
  wsOpen : Bool
deriving DecidableEq, Repr

/-- A message sent over the realtime WebSocket, identified by its `type`. -/
structure RTMessage where
  type : String
deriving DecidableEq, Repr

/-- `OpenAIRealtimeService.interrupt` (`src/unnamed/part_003` lines 402–408):
when connected, `sendMessage({ type: 'response.cancel' })`; `sendMessage`
sends iff the socket is open (otherwise it logs a warning).  Returns the
messages actually sent. -/
def interrupt (st : RealtimeServiceState) : List RTMessage :=
  if st.isConnected then
    if st.wsOpen then [RTMessage.mk "response.cancel"] else []
  else []

/-- `VoiceSearch.handleCancel` (lines 329–343): detaches `onend`, stops the
recognition session when one is active, clears transcript state, and resets
the search params keeping only the tags.  Returns the new params and whether
an in-flight recognition session was stopped. -/
def vsHandleCancel (hasRec : Bool) (p : SearchParams) : SearchParams × Bool :=
  ({ initialSearchParams with tags := p.tags }, hasRec)

/-- C6, counterexample: the system *does* issue cancellations of in-flight
work — `interrupt` on a connected service with an open socket sends a
`response.cancel` message for the pending AI response, and `handleCancel`
stops an active recognition session. -/
theorem interrupt_cancel_counterexample :
    RTMessage.mk "response.cancel" ∈ interrupt (RealtimeServiceState.mk true true) ∧
    (vsHandleCancel true initialSearchParams).2 = true := by
  constructor
  · simp [interrupt]
  · rfl

/-- C6 (amended): `OpenAIRealtimeService.interrupt` sends a cancel message
for the pending AI response exactly when the service is connected with an
open socket, and sends nothing else; `VoiceSearch.handleCancel` stops an
in-flight recognition session exactly when one is active and resets all
search parameters except the tags. -/
theorem interrupt_behavior (st : RealtimeServiceState) :
    (RTMessage.mk "response.cancel" ∈ interrupt st ↔
      st.isConnected = true ∧ st.wsOpen = true) ∧
    (∀ m, m ∈ interrupt st → m = RTMessage.mk "response.cancel") ∧
    (∀ (b : Bool) (p : SearchParams),
      (vsHandleCancel b p).2 = b ∧
      (vsHandleCancel b p).1 = { initialSearchParams with tags := p.tags }) := by
  refine ⟨?_, ?_, fun b p => ⟨rfl, rfl⟩⟩
  · cases st with
    | mk c w => cases c <;> cases w <;> simp [interrupt]
  · intro m hm
    cases st with
    | mk c w =>
      cases c <;> cases w <;> simp [interrupt] at hm <;> try exact hm
      all_goals cases hm

/-- C6 amended-theorem witness at a concrete connected state. -/
theorem interrupt_behavior_witness :
    RTMessage.mk "response.cancel" ∈ interrupt (RealtimeServiceState.mk true true) ∧
    (vsHandleCancel false initialSearchParams).2 = false :=
  ⟨(interrupt_behavior (RealtimeServiceState.mk true true)).1.mpr ⟨rfl, rfl⟩,
   ((interrupt_behavior (RealtimeServiceState.mk true true)).2.2 false
      initialSearchParams).1⟩

/-! ### localStorage (`EnhancedRealtimeVoiceSearch.tsx`) -/

/-- Browser `localStorage`: a persistent, cross-session key-value store. -/
abbrev LocalStorage := List (String × String)

/-- `localStorage.getItem(k)`. -/
def lsGet (ls : LocalStorage) (k : String) : Option String :=
  (ls.find? (fun kv => kv.1 == k)).map (fun kv => kv.2)

/-- `localStorage.setItem(k, v)`: replace any existing entry for `k`. -/
def lsSet (ls : LocalStorage) (k v : String) : LocalStorage :=
  (k, v) :: ls.filter (fun kv => kv.1 != k)

/-- The component-visible effects of `handleApiKeySave`. -/
structure ApiKeySaveOut where
  storage : LocalStorage
  apiKey : String
  showSettings : Bool
  serviceStarted : Bool
deriving DecidableEq, Repr

/-- `handleApiKeySave` of `EnhancedRealtimeVoiceSearch.tsx` (lines 197–202):
`localStorage.setItem('openai_api_key', key)`, `setApiKey(key)`,
`setShowSettings(false)`, `initializeService(key)`. -/
def handleApiKeySave (key : String) (ls : LocalStorage) : ApiKeySaveOut :=
  { storage := lsSet ls "openai_api_key" key
    apiKey := key
    showSettings := false
    serviceStarted := true }

/-- C7, counterexample: the application *does* write to persistent storage —
saving an API key in `EnhancedRealtimeVoiceSearch` stores it in
`localStorage` under `openai_api_key`, visible across sessions. -/
theorem localStorage_write_counterexample :
    lsGet [] "openai_api_key" = none ∧
    lsGet (handleApiKeySave "sk-test-123" []).storage "openai_api_key"
      = some "sk-test-123" := by
  constructor <;> rfl

theorem find?_filter_ne (ls : List (String × String)) (k kex : String)
    (hk : ¬ k = kex) :
    (ls.filter (fun kv => kv.1 != kex)).find? (fun kv => kv.1 == k)
      = ls.find? (fun kv => kv.1 == k) := by
  induction ls with
  | nil => rfl
  | cons kv ls ih =>
    by_cases h1 : kv.1 = kex
    · have h2 : (kv.1 == k) = false :=
        beq_eq_false_iff_ne.mpr (fun he => hk ((he.symm.trans h1)))
      have h1b : (kv.1 != kex) = false := by
        simp [h1]
      simp [List.filter_cons, h1b, List.find?_cons, h2, ih]
    · have h1b : (kv.1 != kex) = true := by
        simp [bne_iff_ne, h1]
      by_cases h2 : kv.1 = k
      · have h2b : (kv.1 == k) = true := beq_iff_eq.mpr h2
        simp [List.filter_cons, h1b, List.find?_cons, h2b]
      · have h2b : (kv.1 == k) = false := beq_eq_false_iff_ne.mpr h2
        simp [List.filter_cons, h1b, List.find?_cons, h2b, ih]

/-- C7 (amended): `handleApiKeySave` is the sole persistent write in the
codebase; it stores exactly the OpenAI API key under `openai_api_key` in
`localStorage` (read back on mount) and leaves every other storage entry
unchanged; all remaining state of the voice-search, settings and UI
operations is ephemeral per-session component state. -/
theorem handleApiKeySave_storage (key : String) (ls : LocalStorage) :
    lsGet (handleApiKeySave key ls).storage "openai_api_key" = some key ∧
    ∀ k, ¬ k = "openai_api_key" →
      lsGet (handleApiKeySave key ls).storage k = lsGet ls k := by
  constructor
  · rfl
  · intro k hk
    have hne : ("openai_api_key" == k) = false :=
      beq_eq_false_iff_ne.mpr (fun he => hk he.symm)
    simp only [handleApiKeySave, lsSet, lsGet, List.find?_cons, hne]
    rw [find?_filter_ne ls k "openai_api_key" hk]

/-- C7 amended-theorem witness: saving a key leaves an unrelated storage
entry untouched. -/
theorem handleApiKeySave_storage_witness :
    lsGet (handleApiKeySave "sk-abc" [("theme", "dark")]).storage "theme"
      = some "dark" :=
  (handleApiKeySave_storage "sk-abc" [("theme", "dark")]).2 "theme" (by decide)

/-! ### `generateMockResults` (`src/unnamed/part_003` lines 812–914) -/

/-- JS truthiness of an optional number (`undefined` and `0` are falsy). -/
def numTruthy : Option Rat → Bool
  | some x => x != 0
  | none => false

/-- `v || d` for an optional number (`0` falls back to the default). -/
def jsOrNum (v : Option Rat) (d : Rat) : Rat :=
  match v with
  | some x => if x = 0 then d else x
  | none => d

/-- `v || d` for an optional string (`""` falls back to the default). -/
def jsOrStr (v : Option String) (d : String) : String :=
  match v with
  | some s => if s = "" then d else s
  | none => d

/-- `Math.round(x)`: round half toward positive infinity. -/
def jsRound (x : Rat) : Int := Int.floor (x + 1/2)

/-- `property.tag` entries (`allTags` in the source). -/
structure PropTag where
  text : String
  type : String
deriving DecidableEq, Repr

structure Agent where
  name : String
  phone : Option String
  email : Option String
deriving DecidableEq, Repr

structure PropButton where
  text : String
  icon : String
deriving DecidableEq, Repr

/-- The `Property` interface of `src/unnamed/part_003` (numeric `price`).
`listedDate` is kept as the millisecond timestamp rather than its ISO-8601
rendering, and numbers interpolated into strings are rendered with Lean's
`toString`. -/
structure Property where
  id : Int
  title : String
  location : String
  price : Rat
  details : Option String
  imageUrl : String
  description : String
  tag : Option PropTag
  tourAvailable : Option Bool
  button : Option PropButton
  bedrooms : Option Rat
  bathrooms : Option Rat
  parking : Option Nat
  size : Option String
  amenities : Option (List String)
  agent : Option Agent
  listedDate : Option Rat
  listingType : Option String
deriving DecidableEq, Repr

def defaultLocations : List String :=
  ["Sydney, NSW", "Melbourne, VIC", "Brisbane, QLD", "Perth, WA",
   "Bondi Beach, NSW", "South Yarra, VIC", "Surfers Paradise, QLD"]

def defaultTypes : List String :=
  ["Apartment", "House", "Townhouse", "Unit", "Villa"]

def allTags : List PropTag :=
  [PropTag.mk "New" "new", PropTag.mk "Premium" "premium",
   PropTag.mk "Open House" "open-house", PropTag.mk "Auction" "auction"]

def allAmenities : List String :=
  ["Pool", "Garage", "Garden", "Balcony", "Air Conditioning", "Gym",
   "Waterfront", "Sea View", "Mountain View", "Pet Friendly"]

/-- One loop iteration's draws from `Math.random()` (each call site an
independent value in `[0,1)`); `shuffleOut` is the outcome of the
random-comparator shuffle `allAmenities.sort(() => 0.5 - Math.random())`,
which is implementation-defined and therefore modelled as an oracle
permutation of `allAmenities`. -/
structure PropRand where
  parkingRand : Rat
  sqmRand : Rat
  shuffleOut : List String
  amenCountRand : Rat
  priceRand : Rat
  tagGateRand : Rat
  tagIdxRand : Rat
  listedRand : Rat
  tourRand : Rat
  agentNameRand : Rat
  agentEmailRand : Rat
deriving DecidableEq, Repr

/-- `const listingType = params.listingType || 'For Sale'`. -/
def mockListingType (params : SearchParams) : String :=
  jsOrStr params.listingType "For Sale"

/-- `if (params.priceMax && priceValue > params.priceMax) priceValue =
params.priceMax`. -/
def clampToMax (v : Option Rat) (pv : Rat) : Rat :=
  match v with
  | some mx => if mx ≠ 0 ∧ pv > mx then mx else pv
  | none => pv

/-- `if (params.priceMin && priceValue < params.priceMin) priceValue =
params.priceMin`. -/
def clampToMin (v : Option Rat) (pv : Rat) : Rat :=
  match v with
  | some mn => if mn ≠ 0 ∧ pv < mn then mn else pv
  | none => pv

/-- `if (params.priceMin && !params.priceMax) priceValue =
Math.max(priceValue, params.priceMin)`. -/
def clampLowIfOnlyMin (params : SearchParams) (pv : Rat) : Rat :=
  match params.priceMin with
  | some mn => if mn ≠ 0 ∧ numTruthy params.priceMax = false then max pv mn else pv
  | none => pv

/-- `if (params.priceMax && !params.priceMin) priceValue =
Math.min(priceValue, params.priceMax)`. -/
def clampHighIfOnlyMax (params : SearchParams) (pv : Rat) : Rat :=
  match params.priceMax with
  | some mx => if mx ≠ 0 ∧ numTruthy params.priceMin = false then min pv mx else pv
  | none => pv

/-- The price computation of `generateMockResults` (lines 856–875): base plus
random spread, rent rounded to $100 / sale to $100k, then clamped back to the
requested (truthy) bounds. -/
def mockPriceValue (params : SearchParams) (r : Rat) : Rat :=
  if mockListingType params = "For Rent" ∨ mockListingType params = "For Lease" then
    let pv : Rat := jsOrNum params.priceMin 2000
      + r * (jsOrNum params.priceMax 15000 - jsOrNum params.priceMin 2000)
    let pv2 : Rat := (jsRound (pv / 100) : Int) * 100
    clampToMin params.priceMin (clampToMax params.priceMax pv2)
  else
    let pv : Rat := jsOrNum params.priceMin 800000
      + r * (jsOrNum params.priceMax 5000000 - jsOrNum params.priceMin 800000)
    let pv1 : Rat := clampHighIfOnlyMax params (clampLowIfOnlyMin params pv)
    let pv2 : Rat := (jsRound (pv1 / 100000) : Int) * 100000
    clampToMin params.priceMin (clampToMax params.priceMax pv2)

/-- The square-meter computation (lines 836–845). -/
def mockSqm (params : SearchParams) (bedrooms : Rat) (r : Rat) : Rat :=
  if params.sizeMetersMin.isSome ∨ params.sizeMetersMax.isSome then
    let minSqm := params.sizeMetersMin.getD 0
    let maxSqm := params.sizeMetersMax.getD (minSqm + 150)
    (jsRound (minSqm + r * (maxSqm - minSqm)) : Int)
  else
    (110 + bedrooms * 35) + ((Int.floor (r * 40 - 20) : Int) : Rat)

/-- The random-tag fallback `Math.random() > 0.6 ?
allTags[Math.floor(Math.random() * 4)] : undefined`. -/
def randomTag (rn : PropRand) : Option PropTag :=
  if rn.tagGateRand > (0.6 : Rat) then
    allTags.get? (Int.floor (rn.tagIdxRand * 4)).toNat
  else none

/-- One loop iteration of `generateMockResults`. -/
def mkMockProperty (params : SearchParams) (i : Nat) (now : Int)
    (rn : PropRand) : Property :=
  let id : Int := now + i
  let location := jsOrStr params.location
    (defaultLocations.getD (i % defaultLocations.length) "")
  let propertyType := jsOrStr params.propertyType
    (defaultTypes.getD (i % defaultTypes.length) "")
  let bedrooms := jsOrNum params.bedroomsMin (2 + (i : Rat))
  let bathrooms := jsOrNum params.bathroomsMin
    (if bedrooms > 1 then bedrooms - 1 else 1)
  let parking := (Int.floor (rn.parkingRand * 3)).toNat
  let sqm := mockSqm params bedrooms rn.sqmRand
  let shuffled := rn.shuffleOut.take (3 + (Int.floor (rn.amenCountRand * 3)).toNat)
  let amenities := match params.amenities with
    | some xs => if xs.length > 0 then xs else shuffled
    | none => shuffled
  let title := if amenities.length > 0 then
      jsOrStr params.style "Modern" ++ " " ++ propertyType ++ " with "
        ++ amenities.headD ""
    else jsOrStr params.style "Spacious" ++ " " ++ propertyType
  let priceValue := mockPriceValue params rn.priceRand
  let listingType := mockListingType params
  let tag : Option PropTag := match params.tags with
    | some ts =>
        if ts.length > 0 then
          allTags.find? (fun t => t.type == ts.getD (i % ts.length) "")
        else randomTag rn
    | none => randomTag rn
  let listedDate : Rat := (now : Rat) - rn.listedRand * (30 * 24 * 60 * 60 * 1000)
  let agentNum := (Int.floor (rn.agentNameRand * 10)).toNat + 1
  let agentNum2 := (Int.floor (rn.agentEmailRand * 10)).toNat + 1
  { id := id
    title := title
    location := location
    price := priceValue
    details := some (toString bedrooms ++ " bd • " ++ toString bathrooms
      ++ " ba • " ++ toString sqm ++ " sqm")
    imageUrl := "https://picsum.photos/800/600?random=" ++ toString id
    description := "Discover this stunning " ++ jsToLower propertyType
      ++ " in the heart of " ++ location ++ ". Featuring " ++ toString bedrooms
      ++ " bedrooms and " ++ toString bathrooms
      ++ " bathrooms, this property offers an expansive " ++ toString sqm
      ++ " sqm of modern living space."
    tag := tag
    tourAvailable := some (rn.tourRand > (0.5 : Rat))
    button := some (PropButton.mk "Virtual tour" "eye")
    bedrooms := some bedrooms
    bathrooms := some bathrooms
    parking := some parking
    size := some (toString sqm ++ " sqm")
    amenities := some amenities
    agent := some (Agent.mk ("Agent " ++ toString agentNum)
      (some "0412 345 678")
      (some ("agent" ++ toString agentNum2 ++ "@realestate.com.au")))
    listedDate := some listedDate
    listingType := some listingType }

/-- `generateMockResults` (lines 812–914): `3 + Math.floor(Math.random()*2)`
properties, one per loop iteration; `now` is `Date.now()` and `rands i` the
iteration's `Math.random()` draws. -/
def generateMockResults (params : SearchParams) (now : Int) (countRand : Rat)
    (rands : Nat → PropRand) : List Property :=
  let count := 3 + (Int.floor (countRand * 2)).toNat
  (List.range count).map (fun i => mkMockProperty params i now (rands i))

/-- Params with both price bounds "set" to `0` — accepted by the claim
(`priceMin ≤ priceMax`) but falsy in every `params.priceMin || …` test. -/
def zeroPriceParams : SearchParams :=
  { initialSearchParams with priceMin := some 0, priceMax := some 0 }

/-- A degenerate randomness bundle (every draw `0`). -/
def zeroRand : PropRand :=
  { parkingRand := 0, sqmRand := 0, shuffleOut := allAmenities
    amenCountRand := 0, priceRand := 0, tagGateRand := 0, tagIdxRand := 0
    listedRand := 0, tourRand := 0, agentNameRand := 0, agentEmailRand := 0 }

/-- C8, counterexample: with `priceMin = priceMax = 0` — both set, and
`priceMin ≤ priceMax` — the first generated property has price `800000`,
violating `price ≤ priceMax`: JavaScript truthiness treats a `0` bound as
unset, so the defaults and no clamps apply. -/
theorem generateMockResults_zero_price_counterexample :
    ((generateMockResults zeroPriceParams 1700000000000 0 (fun _ => zeroRand)).map
        Property.price).head? = some 800000 ∧
    ¬ ((800000 : Rat) ≤ 0) := by
  constructor
  · have hr : generateMockResults zeroPriceParams 1700000000000 0 (fun _ => zeroRand)
        = (List.range (3 + (Int.floor ((0:Rat) * 2)).toNat)).map
            (fun i => mkMockProperty zeroPriceParams i 1700000000000 zeroRand) := rfl
    have hcount : (3 + (Int.floor ((0:Rat) * 2)).toNat) = 3 := by norm_num
    have hr2 : ((generateMockResults zeroPriceParams 1700000000000 0
          (fun _ => zeroRand)).map Property.price).head?
        = some (mockPriceValue zeroPriceParams 0) := by
      rw [hr, hcount]
      rfl
    rw [hr2]
    refine congrArg some ?_
    have hne1 : ¬ ("For Sale" = "For Rent") := by decide
    have hne2 : ¬ ("For Sale" = "For Lease") := by decide
    norm_num [mockPriceValue, mockListingType, jsOrStr, jsOrNum,
      clampLowIfOnlyMin, clampHighIfOnlyMax, clampToMin, clampToMax, jsRound,
      numTruthy, zeroPriceParams, initialSearchParams, Int.floor_eq_iff,
      hne1, hne2]
  · norm_num

theorem clamp_bounds (mn mx q : Rat) (hmn0 : mn ≠ 0) (hmx0 : mx ≠ 0)
    (hle : mn ≤ mx) :
    mn ≤ clampToMin (some mn) (clampToMax (some mx) q) ∧
    clampToMin (some mn) (clampToMax (some mx) q) ≤ mx := by
  simp only [clampToMin, clampToMax]
  split_ifs with h1 h2 h3
  · exact ⟨le_refl mn, hle⟩
  · exact ⟨hle, le_refl mx⟩
  · exact ⟨le_refl mn, hle⟩
  · have hq1 : ¬ q > mx := not_and.mp h1 hmx0
    have hq2 : ¬ q < mn := not_and.mp h3 hmn0
    exact ⟨le_of_not_lt hq2, le_of_not_lt hq1⟩

theorem mockPriceValue_shape (params : SearchParams) (r : Rat) :
    ∃ q : Rat, mockPriceValue params r
      = clampToMin params.priceMin (clampToMax params.priceMax q) := by
  rw [mockPriceValue]
  by_cases h : mockListingType params = "For Rent" ∨
      mockListingType params = "For Lease"
  · rw [if_pos h]
    exact ⟨_, rfl⟩
  · rw [if_neg h]
    exact ⟨_, rfl⟩

theorem mockPriceValue_bounds (params : SearchParams) (r mn mx : Rat)
    (hmn : params.priceMin = some mn) (hmx : params.priceMax = some mx)
    (h0 : 0 < mn) (hle : mn ≤ mx) :
    mn ≤ mockPriceValue params r ∧ mockPriceValue params r ≤ mx := by
  obtain ⟨q, hq⟩ := mockPriceValue_shape params r
  rw [hq, hmn, hmx]
  exact clamp_bounds mn mx q (ne_of_gt h0) (ne_of_gt (lt_of_lt_of_le h0 hle)) hle

/-- C8 (amended): when both price bounds are set and *positive* with
`priceMin ≤ priceMax`, every property returned by `generateMockResults` has
`priceMin ≤ price ≤ priceMax` (the rounded price is clamped back into the
range), and the returned list has 3 or 4 elements whenever the count draw is
in `[0, 1)`.  (A bound set to `0` is falsy in JavaScript and is treated as
unset.) -/
theorem generateMockResults_price_bounds (params : SearchParams) (now : Int)
    (countRand : Rat) (rands : Nat → PropRand) (mn mx : Rat)
    (hmn : params.priceMin = some mn) (hmx : params.priceMax = some mx)
    (h0 : 0 < mn) (hle : mn ≤ mx)
    (hc0 : 0 ≤ countRand) (hc1 : countRand < 1) :
    ((generateMockResults params now countRand rands).length = 3 ∨
     (generateMockResults params now countRand rands).length = 4) ∧
    ∀ prop ∈ generateMockResults params now countRand rands,
      mn ≤ prop.price ∧ prop.price ≤ mx := by
  constructor
  · have hlen : (generateMockResults params now countRand rands).length
        = 3 + (Int.floor (countRand * 2)).toNat := by
      simp [generateMockResults]
    have hf0 : (0 : Int) ≤ Int.floor (countRand * 2) := by
      apply Int.le_floor.mpr
      push_cast
      linarith
    have hf2 : Int.floor (countRand * 2) < 2 := by
      apply Int.floor_lt.mpr
      push_cast
      linarith
    rw [hlen]
    omega
  · intro prop hprop
    simp only [generateMockResults, List.mem_map, List.mem_range] at hprop
    obtain ⟨i, _, hi⟩ := hprop
    have hp : prop.price = mockPriceValue params (rands i).priceRand := by
      rw [← hi]
      rfl
    rw [hp]
    exact mockPriceValue_bounds params (rands i).priceRand mn mx hmn hmx h0 hle

/-- C8 amended-theorem witness: a rental search between \$3,000 and \$5,000. -/
theorem generateMockResults_price_bounds_witness :
    (((generateMockResults
        { initialSearchParams with
          listingType := some "For Rent", priceMin := some 3000,
          priceMax := some 5000 } 1700000000000 0 (fun _ => zeroRand)).length = 3 ∨
      (generateMockResults
        { initialSearchParams with
          listingType := some "For Rent", priceMin := some 3000,
          priceMax := some 5000 } 1700000000000 0 (fun _ => zeroRand)).length = 4) ∧
     ∀ prop ∈ generateMockResults
        { initialSearchParams with
          listingType := some "For Rent", priceMin := some 3000,
          priceMax := some 5000 } 1700000000000 0 (fun _ => zeroRand),
       (3000 : Rat) ≤ prop.price ∧ prop.price ≤ 5000) :=
  generateMockResults_price_bounds _ 1700000000000 0 (fun _ => zeroRand)
    3000 5000 rfl rfl (by norm_num) (by norm_num) (by norm_num) (by norm_num)

/-! ### The `/api/voice/process` route (`src/unnamed/part_005`) -/

/-- A JSON value as the route's checks observe it (`jother` stands for
arrays and objects: truthy, not a string). -/
inductive JVal where
  | jstr (s : String)
  | jnum (q : Rat)
  | jbool (b : Bool)
  | jnull
  | jother
deriving DecidableEq, Repr

/-- JS truthiness of a JSON value. -/
def jsTruthyJ : JVal → Bool
  | JVal.jstr s => s != ""
  | JVal.jnum q => q != 0
  | JVal.jbool b => b
  | JVal.jnull => false
  | JVal.jother => true

/-- `typeof v === "string"`. -/
def isStringJ : JVal → Bool
  | JVal.jstr _ => true
  | _ => false

/-- The request body as destructured by
`const { query, currentParams } = await req.json()` (an absent key is
`none`). -/
structure VoiceReqBody where
  query : Option JVal
  currentParams : Option JVal
deriving DecidableEq, Repr

/-- The two environment variables the route reads. -/
structure Env where
  googleAiApiKey : Option String
  geminiApiKey : Option String
deriving DecidableEq, Repr

/-- `a || b` on optional strings (empty string is falsy). -/
def jsOrOptStr (a b : Option String) : Option String :=
  match a with
  | some s => if s = "" then b else some s
  | none => b

def strTruthyOpt : Option String → Bool
  | some s => s != ""
  | none => false

/-- What the route reads from the Gemini response:
`data.candidates?.[0]?.content?.parts?.[0]?.text`. -/
structure GeminiData where
  extractedText : Option String
deriving DecidableEq, Repr

/-- The route's JSON response body. -/
inductive RouteBody where
  | errorMsg (s : String)
  | emptyObj
  | passthrough (v : JVal)
deriving DecidableEq, Repr

/-- HTTP result of the route plus the queries sent to the Gemini endpoint. -/
structure RouteOut where
  status : Nat
  body : RouteBody
  geminiCalls : List String
deriving DecidableEq, Repr

/-- The `POST` handler of `src/unnamed/part_005`: body parsing (`none` =
`req.json()` threw → catch-all 500), the `!query || typeof query !==
"string"` validation, the API-key check, the Gemini call (recorded in
`geminiCalls`), the `!extractedText` check, and `JSON.parse` on the
extracted text (`jparse` is an oracle for the parser; `none` = throws →
catch-all 500). -/
def routePOST (body : Option VoiceReqBody) (env : Env)
    (gemini : FetchResult GeminiData) (jparse : String → Option JVal) :
    RouteOut :=
  match body with
  | none =>
      { status := 500, body := RouteBody.errorMsg "Internal server error"
        geminiCalls := [] }
  | some b =>
      let bad := match b.query with
        | none => true
        | some q => !jsTruthyJ q || !isStringJ q
      if bad then
        { status := 400, body := RouteBody.errorMsg "Invalid query"
          geminiCalls := [] }
      else
        let apiKey := jsOrOptStr env.googleAiApiKey env.geminiApiKey
        if !strTruthyOpt apiKey then
          { status := 500, body := RouteBody.errorMsg "AI service not configured"
            geminiCalls := [] }
        else
          let qs := match b.query with
            | some (JVal.jstr s) => s
            | _ => ""
          match gemini with
          | FetchResult.reject =>
              { status := 500, body := RouteBody.errorMsg "Internal server error"
                geminiCalls := [qs] }
          | FetchResult.response false _ =>
              { status := 500
                body := RouteBody.errorMsg "Failed to process voice query"
                geminiCalls := [qs] }
          | FetchResult.response true none =>
              { status := 500, body := RouteBody.errorMsg "Internal server error"
                geminiCalls := [qs] }
          | FetchResult.response true (some d) =>
              match d.extractedText with
              | none =>
                  { status := 200, body := RouteBody.emptyObj
                    geminiCalls := [qs] }
              | some t =>
                  if t = "" then
                    { status := 200, body := RouteBody.emptyObj
                      geminiCalls := [qs] }
                  else
                    match jparse t with
                    | none =>
                        { status := 500
                          body := RouteBody.errorMsg "Internal server error"
                          geminiCalls := [qs] }
                    | some v =>
                        { status := 200, body := RouteBody.passthrough v
                          geminiCalls := [qs] }

/-- The body lacks a `query` key, or its `query` is not a string. -/
def queryMissingOrNonString (b : VoiceReqBody) : Bool :=
  match b.query with
  | none => true
  | some q => !isStringJ q

/-- C9: for every request body without a string `query`, the handler returns
HTTP 400 with body `{"error": "Invalid query"}` and performs no call to the
Gemini service, whatever the environment, the (hypothetical) Gemini outcome
and the JSON parser behavior. -/
theorem routePOST_invalid_query (b : VoiceReqBody) (env : Env)
    (gemini : FetchResult GeminiData) (jparse : String → Option JVal)
    (h : queryMissingOrNonString b = true) :
    routePOST (some b) env gemini jparse =
      { status := 400, body := RouteBody.errorMsg "Invalid query"
        geminiCalls := [] } := by
  cases hq : b.query with
  | none => simp [routePOST, hq]
  | some q =>
      have hs : isStringJ q = false := by
        simpa [queryMissingOrNonString, hq] using h
      simp [routePOST, hq, hs]

/-- C9 witness: a body with no `query` key yields the 400 response and no
Gemini call. -/
theorem routePOST_invalid_query_witness :
    routePOST (some (VoiceReqBody.mk none none)) (Env.mk (some "k") none)
        FetchResult.reject (fun _ => none)
      = { status := 400, body := RouteBody.errorMsg "Invalid query"
          geminiCalls := [] } :=
  routePOST_invalid_query (VoiceReqBody.mk none none) (Env.mk (some "k") none)
    FetchResult.reject (fun _ => none) rfl

/-! ### `PriceRangeSlider` (`src/components/voice-search/PriceRangeSlider.tsx`) -/

/-- `listingType === "For Rent" || listingType === "For Lease"`. -/
def isRentListing (lt : Option String) : Bool :=
  lt == some "For Rent" || lt == some "For Lease"

def effectiveMinOf (lt : Option String) : Int :=
  if isRentListing lt then 500 else 100000

def effectiveMaxOf (lt : Option String) : Int :=
  if isRentListing lt then 15000 else 10000000

def effectiveStepOf (lt : Option String) : Int :=
  if isRentListing lt then 100 else 50000

inductive Thumb where
  | minT | maxT
deriving DecidableEq, Repr

/-- One slider interaction: a pointer drag of a thumb (the pointer position
as a percentage of the track width, before clamping) or a keyboard
operation (`keyLeft` = ArrowLeft/ArrowDown, `keyRight` = ArrowRight/ArrowUp,
`keyOther` = any other key: `handleValueChange([minVal, maxVal])`). -/
inductive SliderOp where
  | drag (th : Thumb) (percent : Rat)
  | keyLeft (th : Thumb)
  | keyRight (th : Thumb)
  | keyHome (th : Thumb)
  | keyEnd (th : Thumb)
  | keyOther (th : Thumb)
deriving DecidableEq, Repr

/-- `handleMouseMove`'s `newValue`: percent clamped to `[0, 100]`, scaled
into the price range, rounded to the step, clamped to
`[effectiveMin, effectiveMax]`. -/
def dragNewValue (lt : Option String) (percent : Rat) : Int :=
  let p := max 0 (min 100 percent)
  let nv := jsRound ((((effectiveMinOf lt : Rat)
    + (p / 100) * ((effectiveMaxOf lt : Rat) - (effectiveMinOf lt : Rat))))
      / (effectiveStepOf lt : Rat)) * effectiveStepOf lt
  max (effectiveMinOf lt) (min (effectiveMaxOf lt) nv)

/-- One step of the slider state `[minVal, maxVal]` under `handleMouseMove`
(lines 69–87) and `handleKeyDown` (lines 107–130). -/
def sliderStep (lt : Option String) (st : Int × Int) (op : SliderOp) :
    Int × Int :=
  let emin := effectiveMinOf lt
  let emax := effectiveMaxOf lt
  let step := effectiveStepOf lt
  match op with
  | SliderOp.drag Thumb.minT p => (min (dragNewValue lt p) (st.2 - step), st.2)
  | SliderOp.drag Thumb.maxT p => (st.1, max (dragNewValue lt p) (st.1 + step))
  | SliderOp.keyLeft Thumb.minT => (max emin (st.1 - step), st.2)
  | SliderOp.keyLeft Thumb.maxT => (st.1, max (st.1 + step) (st.2 - step))
  | SliderOp.keyRight Thumb.minT => (min (st.2 - step) (st.1 + step), st.2)
  | SliderOp.keyRight Thumb.maxT => (st.1, min emax (st.2 + step))
  | SliderOp.keyHome Thumb.minT => (emin, st.2)
  | SliderOp.keyHome Thumb.maxT => (st.1, st.1 + step)
  | SliderOp.keyEnd Thumb.minT => (st.2 - step, st.2)
  | SliderOp.keyEnd Thumb.maxT => (st.1, emax)
  | SliderOp.keyOther _ => (st.1, st.2)

/-- C10, counterexample: the ordering invariant `minValue + step ≤ maxValue`
alone is *not* preserved.  In the sale configuration
(`effectiveMin + step ≤ effectiveMax` holds), the reachable state
`[1000, 60000]` (both thumbs below `effectiveMin`, e.g. set by voice
extraction) satisfies `1000 + 50000 ≤ 60000`, but ArrowLeft on the minimum
thumb clamps it up to `effectiveMin = 100000`, yielding `[100000, 60000]`
with `100000 + 50000 > 60000`. -/
theorem slider_keyboard_counterexample :
    effectiveMinOf none + effectiveStepOf none ≤ effectiveMaxOf none ∧
    (1000 : Int) + effectiveStepOf none ≤ 60000 ∧
    sliderStep none (1000, 60000) (SliderOp.keyLeft Thumb.minT)
      = (100000, 60000) ∧
    ¬ ((100000 : Int) + effectiveStepOf none ≤ 60000) := by
  refine ⟨by decide, by decide, by decide, by decide⟩

/-- The invariant the slider handlers actually maintain: both thumbs inside
`[effectiveMin, effectiveMax]` and separated by at least one step. -/
def sliderInv (lt : Option String) (st : Int × Int) : Prop :=
  effectiveMinOf lt ≤ st.1 ∧ st.1 + effectiveStepOf lt ≤ st.2 ∧
    st.2 ≤ effectiveMaxOf lt

theorem sliderCfg_bounds (lt : Option String) :
    0 < effectiveStepOf lt ∧
    effectiveMinOf lt + effectiveStepOf lt ≤ effectiveMaxOf lt := by
  cases hr : isRentListing lt <;>
    simp [effectiveStepOf, effectiveMinOf, effectiveMaxOf, hr]

theorem dragNewValue_bounds (lt : Option String) (p : Rat) :
    effectiveMinOf lt ≤ dragNewValue lt p ∧
    dragNewValue lt p ≤ effectiveMaxOf lt := by
  have h : effectiveMinOf lt ≤ effectiveMaxOf lt := by
    have := sliderCfg_bounds lt
    omega
  simp only [dragNewValue]
  constructor
  · exact le_max_left _ _
  · exact max_le h (min_le_left _ _)

theorem sliderStep_preserves (lt : Option String) (st : Int × Int)
    (op : SliderOp) (h : sliderInv lt st) : sliderInv lt (sliderStep lt st op) := by
  obtain ⟨h1, h2, h3⟩ := h
  obtain ⟨hstep, hrange⟩ := sliderCfg_bounds lt
  cases op with
  | drag th p =>
      obtain ⟨hd1, hd2⟩ := dragNewValue_bounds lt p
      cases th <;> simp only [sliderStep, sliderInv] <;>
        refine ⟨?_, ?_, ?_⟩ <;> omega
  | keyLeft th =>
      cases th <;> simp only [sliderStep, sliderInv] <;>
        refine ⟨?_, ?_, ?_⟩ <;> omega
  | keyRight th =>
      cases th <;> simp only [sliderStep, sliderInv] <;>
        refine ⟨?_, ?_, ?_⟩ <;> omega
  | keyHome th =>
      cases th <;> simp only [sliderStep, sliderInv] <;>
        refine ⟨?_, ?_, ?_⟩ <;> omega
  | keyEnd th =>
      cases th <;> simp only [sliderStep, sliderInv] <;>
        refine ⟨?_, ?_, ?_⟩ <;> omega
  | keyOther th =>
      simp only [sliderStep, sliderInv]
      exact ⟨h1, h2, h3⟩

/-- C10 (amended): with the invariant strengthened to "both thumbs lie in
`[effectiveMin, effectiveMax]` and `minValue + step ≤ maxValue`", every
sequence of pointer drags and keyboard operations preserves it, in both the
rent and sale configurations (for which `effectiveMin + step ≤ effectiveMax`
always holds); in particular the thumbs always stay ordered at least one
step apart. -/
theorem sliderStep_run_preserves (lt : Option String) (st : Int × Int)
    (ops : List SliderOp) (h : sliderInv lt st) :
    sliderInv lt (ops.foldl (sliderStep lt) st) := by
  induction ops generalizing st with
  | nil => exact h
  | cons op ops ih =>
      exact ih (sliderStep lt st op) (sliderStep_preserves lt st op h)

/-- C10 amended-theorem witness: a keyboard sequence from the default sale
range. -/
theorem sliderStep_run_preserves_witness :
    sliderInv none ([SliderOp.keyLeft Thumb.minT, SliderOp.keyRight Thumb.maxT,
        SliderOp.keyEnd Thumb.minT, SliderOp.keyHome Thumb.maxT].foldl
      (sliderStep none) (100000, 10000000)) :=
  sliderStep_run_preserves none (100000, 10000000)
    [SliderOp.keyLeft Thumb.minT, SliderOp.keyRight Thumb.maxT,
     SliderOp.keyEnd Thumb.minT, SliderOp.keyHome Thumb.maxT]
    (by refine ⟨by decide, by decide, by decide⟩)
